import Mathlib

/-!
Verification of the CRUD router factory of the SLP backend
(`app/routers/base.py`), the subjects filter endpoint
(`app/routers/subjects.py`) and their contracts.

The embedding is shallow: rows held by the ORM session are modelled as
functions from attribute (column) names to scalar values, the database
session as a pair of a committed state and an in-flight draft, and every
route handler of `create_crud_router` as a pure function from its inputs
(including an injected failure outcome for the database round trips) to
its HTTP result, the final session and the trace of session operations
it performed.
-/

set_option autoImplicit false

namespace SlpApi

/-- Scalar values carried in request/response bodies and stored in columns
(the "Generic Record" wire values). `vnull` is JSON/SQL null. -/
inductive Value where
  | vnull
  | vint (n : Int)
  | vstr (s : String)
  | vbool (b : Bool)
deriving DecidableEq

/-- Python-side scalar types produced by `col.type.python_type` in
`create_crud_router` (`base.py`). -/
inductive PyType where
  | pint
  | pfloat
  | pstr
  | pbool
  | pdatetime
deriving DecidableEq

/-- One reflected column: its name, its resolved Python type
(`none` when `col.type.python_type` raises, the "unknown type" case of
`base.py` lines 48-52 and 57-61), its nullability and whether it is a
primary-key column. -/
structure Column where
  name : String
  pytype : Option PyType
  nullable : Bool
  primary_key : Bool
deriving DecidableEq

/-- A reflected table: its name and its ordered columns
(`mapper.columns` in `create_crud_router`). -/
structure Table where
  name : String
  cols : List Column
deriving DecidableEq

/-- An ORM row object: a mapping from attribute names to scalar values
(attribute access `getattr`/`setattr` of `base.py`). -/
abbrev Item := String → Value

/-- A Generic Record: the column-name-to-value association used as the
wire representation of request and response bodies. -/
abbrev Rec := List (String × Value)

/-- Function `model_to_dict` of `base.py` lines 10-12: extract, for every column of
the row's table, the pair of the column name and the row's value there. -/
def model_to_dict (t : Table) (it : Item) : Rec :=
  t.cols.map (fun c => (c.name, it c.name))

/-- The string rendering of a value used inside error details
(Python `str()` interpolation in the f-strings of `base.py`). -/
def Value.str : Value → String
  | .vnull => "None"
  | .vint n => toString n
  | .vstr s => s
  | .vbool b => cond b "True" "False"

/-- Query `db.query(model_class).filter(getattr(model_class, pk_name) == item_id).first()`:
the first row whose primary-key attribute equals the requested id. -/
def queryFirst (pkName : String) (db : List Item) (id : Value) : Option Item :=
  db.find? (fun it => decide (it pkName = id))

/-- The `get_all` handler of `base.py` lines 74-84 on its success path:
`db.query(model_class).offset(skip).limit(limit).all()` followed by
`model_to_dict` on every row. -/
def get_all (t : Table) (db : List Item) (skip limit : Nat) : List Rec :=
  ((db.drop skip).take limit).map (model_to_dict t)

/-- The `get_all` request entry point: query parameters may be absent, in
which case the defaults of the signature `skip: int = 0, limit: int = 100`
apply. -/
def get_all_req (t : Table) (db : List Item) (skip? limit? : Option Nat) : List Rec :=
  get_all t db (skip?.getD 0) (limit?.getD 100)

/-- A small concrete table used by witnesses: integer primary key `id`,
nullable string column `name`. -/
def sampleTable : Table :=
  { name := "enrollments"
    cols := [ { name := "id", pytype := some .pint, nullable := false, primary_key := true },
              { name := "name", pytype := some .pstr, nullable := true, primary_key := false } ] }

/-- A concrete row with `id = 1`, `name = "x"`. -/
def itemA : Item :=
  fun n => if n = "id" then .vint 1 else if n = "name" then .vstr "x" else .vnull

/-- A concrete row with `id = 2`, `name = "y"`. -/
def itemB : Item :=
  fun n => if n = "id" then .vint 2 else if n = "name" then .vstr "y" else .vnull

/-- A concrete two-row database state. -/
def sampleDb : List Item := [itemA, itemB]

/-- Claim C7: for every table, `GET P/` with `limit=0` returns an empty
array, `GET P/` with `skip` at least the number of rows returns an empty
array, the defaults are `skip=0` and `limit=100`, and a successful result
never contains more than `limit` records. -/
theorem get_all_pagination (t : Table) (db : List Item) (skip limit : Nat) :
    get_all t db skip 0 = [] ∧
    (db.length ≤ skip → get_all t db skip limit = []) ∧
    get_all_req t db none none = get_all t db 0 100 ∧
    (get_all t db skip limit).length ≤ limit := by
  refine ⟨?_, ?_, rfl, ?_⟩
  · simp [get_all]
  · intro h
    simp [get_all, List.drop_eq_nil_of_le h]
  · simp [get_all]

/-- A concrete two-row table state exercising `get_all_pagination`,
including the `skip` beyond the row count hypothesis. -/
theorem get_all_pagination_witness :
    get_all sampleTable sampleDb 5 3 = [] ∧
    (get_all sampleTable sampleDb 5 0 = [] ∧
     (sampleDb.length ≤ 5 → get_all sampleTable sampleDb 5 3 = []) ∧
     get_all_req sampleTable sampleDb none none = get_all sampleTable sampleDb 0 100 ∧
     (get_all sampleTable sampleDb 5 3).length ≤ 3) := by
  refine ⟨?_, get_all_pagination sampleTable sampleDb 5 3⟩
  exact (get_all_pagination sampleTable sampleDb 5 3).2.1 (by decide)

/-- Exceptions raised inside a handler body: `http` is FastAPI's
`HTTPException` with a status code and a detail string, `dbErr` any other
exception escaping a database call (caught by the trailing
`except Exception` clauses of `base.py`). -/
inductive Exc where
  | http (status : Nat) (detail : String)
  | dbErr (msg : String)
deriving DecidableEq

/-- A handler outcome: `.ok (status, body)` where the body is a record
for the object routes and `none` for DELETE's empty 204 body, or
`.error` carrying the surfaced exception. -/
abbrev HOut := Except Exc (Nat × Option Rec)

/-- True exactly on the `.ok` outcome. -/
def excOk {ε α : Type} : Except ε α → Bool
  | .ok _ => true
  | .error _ => false

/-- True exactly on an HTTP 404 outcome. -/
def is404 : HOut → Bool
  | .error (.http 404 _) => true
  | _ => false

/-- True exactly on an HTTP 500 outcome. -/
def is500 : HOut → Bool
  | .error (.http 500 _) => true
  | _ => false

/-- True exactly when the database lookup itself raised. -/
def isDbErr (q : Except String (Option Item)) : Bool :=
  match q with
  | .error _ => true
  | _ => false

/-- Body of the `get_by_id` handler (`base.py` lines 90-97), as run inside
its `try`: a failing query raises a database error; a successful query
returning no row raises `HTTPException(404, ...)`; a found row is rendered
with `model_to_dict` and returned with the default status 200. -/
def get_by_id_body (t : Table) (q : Except String (Option Item)) (id : Value) : HOut :=
  match q with
  | .error m => .error (.dbErr m)
  | .ok none => .error (.http 404 (t.name ++ " with id " ++ id.str ++ " not found"))
  | .ok (some it) => .ok (200, some (model_to_dict t it))

/-- The `except` clauses of the fetch handlers (`base.py` lines 98-104):
an `HTTPException` is re-raised unchanged, any other exception becomes
`HTTPException(500, "Error fetching ...")`. -/
def handleFetchExc (t : Table) (r : HOut) : HOut :=
  match r with
  | .error (.dbErr m) => .error (.http 500 ("Error fetching " ++ t.name ++ ": " ++ m))
  | x => x

/-- The complete `get_by_id` handler: its body wrapped in the
try/except translation of `base.py` lines 87-104. -/
def get_by_id_handler (t : Table) (q : Except String (Option Item)) (id : Value) : HOut :=
  handleFetchExc t (get_by_id_body t q id)

/-- Claim C5: when the primary-key lookup succeeds but finds no row, the
handler returns 404 (the `except HTTPException: raise` clause keeps the
404 from being rewrapped); a 500 arises only when the lookup itself
raised. -/
theorem get_by_id_absent_is_404
    (t : Table) (pkName : String) (db : List Item) (id : Value)
    (q : Except String (Option Item))
    (habs : queryFirst pkName db id = none) :
    is404 (get_by_id_handler t (Except.ok (queryFirst pkName db id)) id) = true ∧
    (is500 (get_by_id_handler t q id) = true → isDbErr q = true) := by
  constructor
  · rw [habs]
    rfl
  · intro h
    match q with
    | .error m => rfl
    | .ok none => exact Bool.noConfusion h
    | .ok (some it) => exact Bool.noConfusion h

/-- Witness for C5: the sample database holds no row with id 3, so
`GET /{3}` is a 404, and on this (successful) query outcome a 500 would
force a database error. -/
theorem get_by_id_absent_is_404_witness :
    is404 (get_by_id_handler sampleTable
            (Except.ok (queryFirst "id" sampleDb (Value.vint 3))) (Value.vint 3)) = true ∧
    (is500 (get_by_id_handler sampleTable (Except.ok (some itemA)) (Value.vint 3)) = true →
      isDbErr (Except.ok (some itemA)) = true) :=
  get_by_id_absent_is_404 sampleTable "id" sampleDb (Value.vint 3)
    (Except.ok (some itemA)) rfl

/-- The ORM session as the mutation handlers see it: `base` is the
committed database state, `draft` the in-flight state holding pending
adds/sets/deletes. `commit` publishes the draft, `rollback` discards it. -/
structure Session where
  base : List Item
  draft : List Item

/-- Session operations recorded by a handler, in order: pending insert
(`db.add`), attribute overwrite (`setattr` on a managed row), pending
delete (`db.delete`), successful `db.commit`, and `db.rollback`. -/
inductive SessOp where
  | add
  | setf
  | del
  | commit
  | rollback
deriving DecidableEq

/-- What one invocation of a mutation handler produced: the HTTP outcome,
the final session, and the trace of session operations performed. -/
structure MutOut where
  res : HOut
  sess : Session
  trace : List SessOp

/-- The row built by `model_class(**item_dict)` and completed by the
database on commit/refresh: attributes present in the body keep the body
value, every other attribute takes the database-assigned default `dflt`
(which for the primary key is the generated key). -/
def newItem (dflt : String → Value) (body : Rec) : Item :=
  fun n => (body.lookup n).getD (dflt n)

/-- The `setattr` loop of the `update` handler (`base.py` lines 136-138):
apply every `(key, value)` pair of the body to the fetched row in order. -/
def applyBody (body : Rec) (it : Item) : Item :=
  body.foldl (fun acc kv => fun n => if n = kv.1 then kv.2 else acc n) it

/-- Replace the first list element satisfying `p` (the row object the
query returned and `setattr` mutated in place). -/
def replaceFirstP {α : Type} (p : α → Bool) (a : α) : List α → List α
  | [] => []
  | x :: xs => if p x then a :: xs else x :: replaceFirstP p a xs

/-- The `create` handler (`base.py` lines 107-122): build the row from
exactly the supplied fields, `db.add` it, `db.commit`; on a commit
failure (`cfail`), `db.rollback` and surface `HTTPException(400, ...)`.
After a successful commit the handler calls `db.refresh` (line 115),
still inside the `try`: a refresh failure (`rfail`) is also rolled back
and surfaced as 400, but only after the insert has been committed. The
decorator sets the success status to 201. -/
def create_handler (t : Table) (dflt : String → Value) (body : Rec)
    (s : Session) (cfail rfail : Option String) : MutOut :=
  let it := newItem dflt body
  let s1 : Session := { s with draft := s.draft ++ [it] }
  match cfail with
  | some m =>
      { res := .error (.http 400 ("Error creating " ++ t.name ++ ": " ++ m))
        sess := { base := s1.base, draft := s1.base }
        trace := [.add, .rollback] }
  | none =>
    let s2 : Session := { s1 with base := s1.draft }
    match rfail with
    | none =>
        { res := .ok (201, some (model_to_dict t it))
          sess := s2
          trace := [.add, .commit] }
    | some m =>
        { res := .error (.http 400 ("Error creating " ++ t.name ++ ": " ++ m))
          sess := { base := s2.base, draft := s2.base }
          trace := [.add, .commit, .rollback] }

/-- The `update` handler (`base.py` lines 125-150): fetch by primary key
(a failing query, `qfail`, is rolled back and surfaced as 400); a missing
row raises 404 untouched (`except HTTPException: raise`, no rollback);
otherwise overwrite exactly the supplied fields and commit, rolling back
on a commit failure. After a successful commit the handler calls
`db.refresh` (line 141), still inside the `try`: a refresh failure
(`rfail`) is also rolled back and surfaced as 400, but only after the
update has been committed. Success status is the default 200. -/
def update_handler (t : Table) (pkName : String) (id : Value) (body : Rec)
    (s : Session) (qfail cfail rfail : Option String) : MutOut :=
  match qfail with
  | some m =>
      { res := .error (.http 400 ("Error updating " ++ t.name ++ ": " ++ m))
        sess := { base := s.base, draft := s.base }
        trace := [.rollback] }
  | none =>
    match queryFirst pkName s.draft id with
    | none =>
        { res := .error (.http 404 (t.name ++ " with id " ++ id.str ++ " not found"))
          sess := s
          trace := [] }
    | some it =>
      let s1 : Session :=
        { s with draft := replaceFirstP (fun j => decide (j pkName = id)) (applyBody body it) s.draft }
      match cfail with
      | some m =>
          { res := .error (.http 400 ("Error updating " ++ t.name ++ ": " ++ m))
            sess := { base := s1.base, draft := s1.base }
            trace := [.setf, .rollback] }
      | none =>
        let s2 : Session := { s1 with base := s1.draft }
        match rfail with
        | none =>
            { res := .ok (200, some (model_to_dict t (applyBody body it)))
              sess := s2
              trace := [.setf, .commit] }
        | some m =>
            { res := .error (.http 400 ("Error updating " ++ t.name ++ ": " ++ m))
              sess := { base := s2.base, draft := s2.base }
              trace := [.setf, .commit, .rollback] }

/-- The `delete` handler (`base.py` lines 153-174): fetch by primary key
(a failing query is rolled back and surfaced as 500); a missing row
raises 404 untouched; otherwise delete the fetched row and commit,
rolling back and surfacing 500 on a commit failure. The decorator sets
the success status to 204 and the handler returns `None` (empty body). -/
def delete_handler (t : Table) (pkName : String) (id : Value)
    (s : Session) (qfail cfail : Option String) : MutOut :=
  match qfail with
  | some m =>
      { res := .error (.http 500 ("Error deleting " ++ t.name ++ ": " ++ m))
        sess := { base := s.base, draft := s.base }
        trace := [.rollback] }
  | none =>
    match queryFirst pkName s.draft id with
    | none =>
        { res := .error (.http 404 (t.name ++ " with id " ++ id.str ++ " not found"))
          sess := s
          trace := [] }
    | some _ =>
      let s1 : Session := { s with draft := s.draft.eraseP (fun j => decide (j pkName = id)) }
      match cfail with
      | none =>
          { res := .ok (204, none)
            sess := { s1 with base := s1.draft }
            trace := [.del, .commit] }
      | some m =>
          { res := .error (.http 500 ("Error deleting " ++ t.name ++ ": " ++ m))
            sess := { base := s1.base, draft := s1.base }
            trace := [.del, .rollback] }

/-- The primary-key search of `create_crud_router` (`base.py` lines
36-41): the first column flagged as primary key, if any. -/
def tablePk (t : Table) : Option Column := t.cols.find? (fun c => c.primary_key)

/-- Whether a body value is accepted for a column by the derived pydantic
schemas: an explicit null is accepted only on a nullable column. -/
def valueOkFor (c : Column) (v : Value) : Bool :=
  match v with
  | .vnull => c.nullable
  | _ => true

/-- A body accepted by the derived Update schema: distinct keys, every
key a column of the table, and null only on nullable columns (all fields
optional). -/
def validForUpdate (t : Table) (body : Rec) : Prop :=
  (body.map Prod.fst).Nodup ∧
  ∀ kv ∈ body, ∃ c ∈ t.cols, c.name = kv.1 ∧ valueOkFor c kv.2 = true

/-- A body accepted by the derived Create schema: as for Update, plus
every non-nullable column is supplied (required fields). -/
def validForCreate (t : Table) (body : Rec) : Prop :=
  validForUpdate t body ∧
  ∀ c ∈ t.cols, c.nullable = false → c.name ∈ body.map Prod.fst

instance instDecidableValidForUpdate (t : Table) (body : Rec) :
    Decidable (validForUpdate t body) :=
  inferInstanceAs (Decidable ((body.map Prod.fst).Nodup ∧
    ∀ kv ∈ body, ∃ c ∈ t.cols, c.name = kv.1 ∧ valueOkFor c kv.2 = true))

instance instDecidableValidForCreate (t : Table) (body : Rec) :
    Decidable (validForCreate t body) :=
  inferInstanceAs (Decidable (validForUpdate t body ∧
    ∀ c ∈ t.cols, c.nullable = false → c.name ∈ body.map Prod.fst))

/-- Looking up a name in a name-keyed rendering of the columns returns the
rendered entry of that column, provided column names are distinct. -/
theorem lookup_map_name {β : Type} (f : Column → β) (cols : List Column) (c : Column)
    (hnd : (cols.map Column.name).Nodup) (hc : c ∈ cols) :
    (cols.map (fun d => (d.name, f d))).lookup c.name = some (f c) := by
  induction cols with
  | nil => cases hc
  | cons d rest ih =>
    simp only [List.map_cons, List.nodup_cons] at hnd
    rcases List.mem_cons.mp hc with h | h
    · subst h
      simp [List.lookup]
    · have hne : (c.name == d.name) = false := by
        apply beq_eq_false_iff_ne.mpr
        intro he
        exact hnd.1 (he ▸ List.mem_map.mpr ⟨c, h, rfl⟩)
      simp only [List.map_cons, List.lookup, hne]
      exact ih hnd.2 h

/-- The keys of a `model_to_dict` rendering are exactly the column names,
in column order. -/
theorem keys_model_to_dict (t : Table) (it : Item) :
    (model_to_dict t it).map Prod.fst = t.cols.map Column.name := by
  simp [model_to_dict, List.map_map]

/-- Applying `setattr` for keys not mentioning `n` leaves attribute `n` unchanged. -/
theorem applyBody_notmem (body : Rec) (it : Item) (n : String)
    (h : n ∉ body.map Prod.fst) : applyBody body it n = it n := by
  induction body generalizing it with
  | nil => rfl
  | cons kv rest ih =>
    simp only [List.map_cons, List.mem_cons, not_or] at h
    show applyBody rest (fun m => if m = kv.1 then kv.2 else it m) n = it n
    rw [ih _ h.2]
    simp [h.1]

/-- After the `setattr` loop, attribute `n` holds the body value when `n`
is supplied and the prior value otherwise (body keys distinct). -/
theorem applyBody_getD (body : Rec) (it : Item) (n : String)
    (hnd : (body.map Prod.fst).Nodup) :
    applyBody body it n = (body.lookup n).getD (it n) := by
  induction body generalizing it with
  | nil => rfl
  | cons kv rest ih =>
    simp only [List.map_cons, List.nodup_cons] at hnd
    show applyBody rest (fun m => if m = kv.1 then kv.2 else it m) n
        = ((kv :: rest).lookup n).getD (it n)
    by_cases he : n = kv.1
    · rw [applyBody_notmem rest _ n (he ▸ hnd.1)]
      simp [List.lookup, he]
    · have hne : (n == kv.1) = false := beq_eq_false_iff_ne.mpr he
      rw [ih _ hnd.2]
      simp [List.lookup, hne, he]

/-- Claim C1: a PUT on an existing row overwrites exactly the fields
present in the body — looked up per column, the updated record holds the
body value when the column is supplied (an explicit null included) and
the prior value otherwise — and the response is the updated record with
status 200. -/
theorem update_partial_semantics
    (t : Table) (pkName : String) (id : Value) (body : Rec) (s : Session)
    (it0 : Item) (c : Column)
    (hnd : (t.cols.map Column.name).Nodup)
    (hvalid : validForUpdate t body)
    (hq : queryFirst pkName s.draft id = some it0)
    (hc : c ∈ t.cols) :
    (update_handler t pkName id body s none none none).res
      = Except.ok (200, some (model_to_dict t (applyBody body it0))) ∧
    (model_to_dict t (applyBody body it0)).lookup c.name
      = some ((body.lookup c.name).getD (it0 c.name)) := by
  constructor
  · simp [update_handler, hq]
  · show ((t.cols.map (fun d => (d.name, applyBody body it0 d.name))).lookup c.name) = _
    rw [lookup_map_name (fun d => applyBody body it0 d.name) t.cols c hnd hc]
    rw [applyBody_getD body it0 c.name hvalid.1]

/-- Witness for C1: on the sample table, a PUT supplying only
`name = null` nulls `name` (a nullable column) and leaves `id` untouched
in the looked-up sense, returning the updated record with 200. -/
theorem update_partial_semantics_witness :
    (update_handler sampleTable "id" (Value.vint 1) [("name", Value.vnull)]
        (Session.mk sampleDb sampleDb) none none none).res
      = Except.ok (200, some (model_to_dict sampleTable
          (applyBody [("name", Value.vnull)] itemA))) ∧
    (model_to_dict sampleTable (applyBody [("name", Value.vnull)] itemA)).lookup "name"
      = some ((([("name", Value.vnull)] : Rec).lookup "name").getD (itemA "name")) :=
  update_partial_semantics sampleTable "id" (Value.vint 1) [("name", Value.vnull)]
    (Session.mk sampleDb sampleDb) itemA
    { name := "name", pytype := some .pstr, nullable := true, primary_key := false }
    (by decide) (by decide) rfl (by decide)

/-- A concrete Create body for the sample table, supplying the required
`id` and the optional `name`. -/
def sampleCreateBody : Rec := [("id", Value.vint 3), ("name", Value.vstr "z")]

/-- Claim C3: a POST with a body valid for the Create schema inserts a
row built from exactly the supplied fields (unsupplied columns take the
database-assigned defaults), commits it, and answers 201 with the
inserted record, which agrees with the body on every supplied field and
carries the primary-key column. -/
theorem create_inserts_supplied_fields
    (t : Table) (dflt : String → Value) (body : Rec) (s : Session)
    (c pkc : Column)
    (hnd : (t.cols.map Column.name).Nodup)
    (hvalid : validForCreate t body)
    (hc : c ∈ t.cols)
    (hpk : tablePk t = some pkc) :
    (create_handler t dflt body s none none).res
      = Except.ok (201, some (model_to_dict t (newItem dflt body))) ∧
    (create_handler t dflt body s none none).sess.base = s.draft ++ [newItem dflt body] ∧
    (model_to_dict t (newItem dflt body)).lookup c.name
      = some ((body.lookup c.name).getD (dflt c.name)) ∧
    (model_to_dict t (newItem dflt body)).lookup pkc.name
      = some (newItem dflt body pkc.name) := by
  have hpkmem : pkc ∈ t.cols := List.mem_of_find?_eq_some hpk
  refine ⟨rfl, rfl, ?_, ?_⟩
  · show ((t.cols.map (fun d => (d.name, newItem dflt body d.name))).lookup c.name) = _
    rw [lookup_map_name (fun d => newItem dflt body d.name) t.cols c hnd hc]
    rfl
  · show ((t.cols.map (fun d => (d.name, newItem dflt body d.name))).lookup pkc.name) = _
    rw [lookup_map_name (fun d => newItem dflt body d.name) t.cols pkc hnd hpkmem]

/-- Witness for C3: creating a row on the sample table from a body
supplying both fields; the 201 record holds the supplied values and the
primary-key field. -/
theorem create_inserts_supplied_fields_witness :
    (create_handler sampleTable (fun _ => Value.vint 7) sampleCreateBody
        (Session.mk sampleDb sampleDb) none none).res
      = Except.ok (201, some (model_to_dict sampleTable
          (newItem (fun _ => Value.vint 7) sampleCreateBody))) ∧
    (create_handler sampleTable (fun _ => Value.vint 7) sampleCreateBody
        (Session.mk sampleDb sampleDb) none none).sess.base
      = sampleDb ++ [newItem (fun _ => Value.vint 7) sampleCreateBody] ∧
    (model_to_dict sampleTable (newItem (fun _ => Value.vint 7) sampleCreateBody)).lookup "id"
      = some ((sampleCreateBody.lookup "id").getD ((fun _ => Value.vint 7) "id")) ∧
    (model_to_dict sampleTable (newItem (fun _ => Value.vint 7) sampleCreateBody)).lookup "id"
      = some (newItem (fun _ => Value.vint 7) sampleCreateBody "id") :=
  create_inserts_supplied_fields sampleTable (fun _ => Value.vint 7) sampleCreateBody
    (Session.mk sampleDb sampleDb)
    { name := "id", pytype := some .pint, nullable := false, primary_key := true }
    { name := "id", pytype := some .pint, nullable := false, primary_key := true }
    (by decide) (by decide) (by decide) rfl

/-- Discipline of the `create` handler with injected commit and refresh
failures: one commit and no rollback on success; on any failure the
performed session operations end in the rollback and the session is left
consistent, and when no commit was performed the session equals its
pre-mutation state; a refresh failure surfaces its error only after the
insert has been committed. -/
theorem create_handler_discipline (t : Table) (dflt : String → Value) (body : Rec)
    (s : Session) (cfail rfail : Option String) :
    (excOk (create_handler t dflt body s cfail rfail).res = true →
      ((create_handler t dflt body s cfail rfail).trace.count SessOp.commit = 1 ∧
       (create_handler t dflt body s cfail rfail).trace.count SessOp.rollback = 0)) ∧
    (excOk (create_handler t dflt body s cfail rfail).res = false →
      (((create_handler t dflt body s cfail rfail).trace = [] ∨
        (create_handler t dflt body s cfail rfail).trace.getLast? = some SessOp.rollback) ∧
       (create_handler t dflt body s cfail rfail).sess.draft
         = (create_handler t dflt body s cfail rfail).sess.base ∧
       ((create_handler t dflt body s cfail rfail).trace.count SessOp.commit = 0 →
        ((create_handler t dflt body s cfail rfail).sess.base = s.base ∧
         (create_handler t dflt body s cfail rfail).sess.draft = s.base)))) ∧
    (cfail = none → rfail ≠ none →
      ((create_handler t dflt body s cfail rfail).sess.base
          = s.draft ++ [newItem dflt body] ∧
       (create_handler t dflt body s cfail rfail).trace.count SessOp.commit = 1)) := by
  cases cfail with
  | some m =>
    exact ⟨fun h => Bool.noConfusion h,
           fun _ => ⟨Or.inr rfl, rfl, fun _ => ⟨rfl, rfl⟩⟩,
           fun hc => Option.noConfusion hc⟩
  | none =>
    cases rfail with
    | none =>
      exact ⟨fun _ => ⟨rfl, rfl⟩,
             fun h => Bool.noConfusion h,
             fun _ hr => absurd rfl hr⟩
    | some m =>
      refine ⟨fun h => Bool.noConfusion h,
              fun _ => ⟨Or.inr rfl, rfl, fun hcm => ?_⟩,
              fun _ _ => ⟨rfl, rfl⟩⟩
      simp only [create_handler] at hcm
      exact absurd hcm (by decide)

/-- Discipline of the `update` handler with injected query, commit and
refresh failures: one commit and no rollback on success; on any failure
the performed session operations end in the rollback and the session is
left consistent, and when no commit was performed the session equals its
pre-mutation state; a refresh failure on a found row surfaces its error
only after the update has been committed. -/
theorem update_handler_discipline (t : Table) (pkName : String) (id : Value) (body : Rec)
    (s : Session) (qfail cfail rfail : Option String) (hclean : s.draft = s.base) :
    (excOk (update_handler t pkName id body s qfail cfail rfail).res = true →
      ((update_handler t pkName id body s qfail cfail rfail).trace.count SessOp.commit = 1 ∧
       (update_handler t pkName id body s qfail cfail rfail).trace.count SessOp.rollback = 0)) ∧
    (excOk (update_handler t pkName id body s qfail cfail rfail).res = false →
      (((update_handler t pkName id body s qfail cfail rfail).trace = [] ∨
        (update_handler t pkName id body s qfail cfail rfail).trace.getLast?
          = some SessOp.rollback) ∧
       (update_handler t pkName id body s qfail cfail rfail).sess.draft
         = (update_handler t pkName id body s qfail cfail rfail).sess.base ∧
       ((update_handler t pkName id body s qfail cfail rfail).trace.count SessOp.commit = 0 →
        ((update_handler t pkName id body s qfail cfail rfail).sess.base = s.base ∧
         (update_handler t pkName id body s qfail cfail rfail).sess.draft = s.base)))) ∧
    (qfail = none → cfail = none → rfail ≠ none →
      (queryFirst pkName s.draft id).isSome = true →
      (update_handler t pkName id body s qfail cfail rfail).trace.count SessOp.commit = 1) := by
  cases qfail with
  | some m =>
    exact ⟨fun h => Bool.noConfusion h,
           fun _ => ⟨Or.inr rfl, rfl, fun _ => ⟨rfl, rfl⟩⟩,
           fun hqf => Option.noConfusion hqf⟩
  | none =>
    cases hq : queryFirst pkName s.draft id with
    | none =>
      refine ⟨?_, ?_, ?_⟩
      · intro h
        simp [update_handler, hq, excOk] at h
      · intro _
        refine ⟨Or.inl ?_, ?_, fun _ => ⟨?_, ?_⟩⟩
        · simp [update_handler, hq]
        · simp only [update_handler, hq]
          exact hclean
        · simp [update_handler, hq]
        · simp only [update_handler, hq]
          exact hclean
      · intro _ _ _ hqs
        exact Bool.noConfusion hqs
    | some it =>
      cases cfail with
      | some m =>
        refine ⟨?_, ?_, ?_⟩
        · intro h
          simp [update_handler, hq, excOk] at h
        · intro _
          refine ⟨Or.inr ?_, ?_, fun _ => ⟨?_, ?_⟩⟩ <;> simp [update_handler, hq]
        · intro _ hcf
          exact Option.noConfusion hcf
      | none =>
        cases rfail with
        | none =>
          refine ⟨?_, ?_, ?_⟩
          · intro _
            constructor <;> (simp only [update_handler, hq]; decide)
          · intro h
            simp [update_handler, hq, excOk] at h
          · intro _ _ hrf
            exact absurd rfl hrf
        | some m =>
          refine ⟨?_, ?_, ?_⟩
          · intro h
            simp [update_handler, hq, excOk] at h
          · intro _
            refine ⟨Or.inr ?_, ?_, fun hcm => ?_⟩
            · simp [update_handler, hq]
            · simp [update_handler, hq]
            · simp only [update_handler, hq] at hcm
              exact absurd hcm (by decide)
          · intro _ _ _ _
            simp only [update_handler, hq]
            decide

/-- Discipline of the `delete` handler, with injected query and commit
failures: one commit and no rollback on success; on any failure the
performed session operations end in the rollback and the session equals
its pre-mutation state (delete has no post-commit refresh). -/
theorem delete_handler_discipline (t : Table) (pkName : String) (id : Value)
    (s : Session) (qfail cfail : Option String) (hclean : s.draft = s.base) :
    (excOk (delete_handler t pkName id s qfail cfail).res = true →
      ((delete_handler t pkName id s qfail cfail).trace.count SessOp.commit = 1 ∧
       (delete_handler t pkName id s qfail cfail).trace.count SessOp.rollback = 0)) ∧
    (excOk (delete_handler t pkName id s qfail cfail).res = false →
      (((delete_handler t pkName id s qfail cfail).trace = [] ∨
        (delete_handler t pkName id s qfail cfail).trace.getLast? = some SessOp.rollback) ∧
       (delete_handler t pkName id s qfail cfail).sess.draft
         = (delete_handler t pkName id s qfail cfail).sess.base ∧
       ((delete_handler t pkName id s qfail cfail).sess.base = s.base ∧
        (delete_handler t pkName id s qfail cfail).sess.draft = s.base))) := by
  cases qfail with
  | some m =>
    exact ⟨fun h => Bool.noConfusion h,
           fun _ => ⟨Or.inr rfl, rfl, rfl, rfl⟩⟩
  | none =>
    cases hq : queryFirst pkName s.draft id with
    | none =>
      refine ⟨?_, ?_⟩
      · intro h
        simp [delete_handler, hq, excOk] at h
      · intro _
        refine ⟨Or.inl ?_, ?_, ?_, ?_⟩
        · simp [delete_handler, hq]
        · simp only [delete_handler, hq]
          exact hclean
        · simp [delete_handler, hq]
        · simp only [delete_handler, hq]
          exact hclean
    | some it =>
      cases cfail with
      | none =>
        refine ⟨?_, ?_⟩
        · intro _
          constructor <;> (simp only [delete_handler, hq]; decide)
        · intro h
          simp [delete_handler, hq, excOk] at h
      | some m =>
        refine ⟨?_, ?_⟩
        · intro h
          simp [delete_handler, hq, excOk] at h
        · intro _
          refine ⟨Or.inr ?_, ?_, ?_, ?_⟩ <;> simp [delete_handler, hq]

/-- Counterexample to C4 as stated: the source calls `db.refresh` after
`db.commit` inside the `try` (`base.py` line 115), so a refresh failure
surfaces an error although the insert was already committed — the
session state observed after the error differs from the state before the
mutation. -/
theorem refresh_failure_after_commit :
    excOk (create_handler sampleTable (fun _ => Value.vint 7) sampleCreateBody
        (Session.mk sampleDb sampleDb) none (some "boom")).res = false ∧
    (create_handler sampleTable (fun _ => Value.vint 7) sampleCreateBody
        (Session.mk sampleDb sampleDb) none (some "boom")).sess.base ≠ sampleDb := by
  refine ⟨rfl, ?_⟩
  intro h
  have hl := congrArg List.length h
  simp [create_handler, sampleDb] at hl

/-- Claim C4 (amended): Create, Update and Delete perform exactly one
commit and no rollback on their success paths; on any failing outcome
the performed session operations end in the rollback (the rollback
precedes the surfaced error) and the session is left consistent; when
the failure occurred before the commit, the session state equals the
state before the mutation. However, Create and Update call the refresh
after the commit, so a refresh failure surfaces its error with the
mutation already committed — for Create the committed state then
contains the inserted row — while Delete always restores the
pre-mutation state on failure. -/
theorem mutation_commit_rollback_discipline
    (t : Table) (pkName : String) (id : Value) (body bodyC : Rec) (dflt : String → Value)
    (s : Session) (qfail cfail rfail : Option String) (hclean : s.draft = s.base) :
    ((excOk (create_handler t dflt bodyC s cfail rfail).res = true →
       ((create_handler t dflt bodyC s cfail rfail).trace.count SessOp.commit = 1 ∧
        (create_handler t dflt bodyC s cfail rfail).trace.count SessOp.rollback = 0)) ∧
     (excOk (create_handler t dflt bodyC s cfail rfail).res = false →
       (((create_handler t dflt bodyC s cfail rfail).trace = [] ∨
         (create_handler t dflt bodyC s cfail rfail).trace.getLast? = some SessOp.rollback) ∧
        (create_handler t dflt bodyC s cfail rfail).sess.draft
          = (create_handler t dflt bodyC s cfail rfail).sess.base ∧
        ((create_handler t dflt bodyC s cfail rfail).trace.count SessOp.commit = 0 →
         ((create_handler t dflt bodyC s cfail rfail).sess.base = s.base ∧
          (create_handler t dflt bodyC s cfail rfail).sess.draft = s.base)))) ∧
     (cfail = none → rfail ≠ none →
       ((create_handler t dflt bodyC s cfail rfail).sess.base
           = s.draft ++ [newItem dflt bodyC] ∧
        (create_handler t dflt bodyC s cfail rfail).trace.count SessOp.commit = 1))) ∧
    ((excOk (update_handler t pkName id body s qfail cfail rfail).res = true →
       ((update_handler t pkName id body s qfail cfail rfail).trace.count SessOp.commit = 1 ∧
        (update_handler t pkName id body s qfail cfail rfail).trace.count SessOp.rollback = 0)) ∧
     (excOk (update_handler t pkName id body s qfail cfail rfail).res = false →
       (((update_handler t pkName id body s qfail cfail rfail).trace = [] ∨
         (update_handler t pkName id body s qfail cfail rfail).trace.getLast?
           = some SessOp.rollback) ∧
        (update_handler t pkName id body s qfail cfail rfail).sess.draft
          = (update_handler t pkName id body s qfail cfail rfail).sess.base ∧
        ((update_handler t pkName id body s qfail cfail rfail).trace.count SessOp.commit = 0 →
         ((update_handler t pkName id body s qfail cfail rfail).sess.base = s.base ∧
          (update_handler t pkName id body s qfail cfail rfail).sess.draft = s.base)))) ∧
     (qfail = none → cfail = none → rfail ≠ none →
       (queryFirst pkName s.draft id).isSome = true →
       (update_handler t pkName id body s qfail cfail rfail).trace.count SessOp.commit = 1)) ∧
    ((excOk (delete_handler t pkName id s qfail cfail).res = true →
       ((delete_handler t pkName id s qfail cfail).trace.count SessOp.commit = 1 ∧
        (delete_handler t pkName id s qfail cfail).trace.count SessOp.rollback = 0)) ∧
     (excOk (delete_handler t pkName id s qfail cfail).res = false →
       (((delete_handler t pkName id s qfail cfail).trace = [] ∨
         (delete_handler t pkName id s qfail cfail).trace.getLast? = some SessOp.rollback) ∧
        (delete_handler t pkName id s qfail cfail).sess.draft
          = (delete_handler t pkName id s qfail cfail).sess.base ∧
        ((delete_handler t pkName id s qfail cfail).sess.base = s.base ∧
         (delete_handler t pkName id s qfail cfail).sess.draft = s.base)))) :=
  ⟨create_handler_discipline t dflt bodyC s cfail rfail,
   update_handler_discipline t pkName id body s qfail cfail rfail hclean,
   delete_handler_discipline t pkName id s qfail cfail hclean⟩

/-- The concrete create run whose refresh fails after the commit. -/
def c4create : MutOut :=
  create_handler sampleTable (fun _ => Value.vint 7) sampleCreateBody
    (Session.mk sampleDb sampleDb) none (some "boom")

/-- The concrete update run whose refresh fails after the commit. -/
def c4update : MutOut :=
  update_handler sampleTable "id" (Value.vint 1) [("name", Value.vnull)]
    (Session.mk sampleDb sampleDb) none none (some "boom")

/-- The concrete delete run on the same clean session. -/
def c4delete : MutOut :=
  delete_handler sampleTable "id" (Value.vint 1) (Session.mk sampleDb sampleDb) none none

/-- Witness for C4 (amended): the discipline at a concrete clean session
with an injected refresh failure in create and update. -/
theorem mutation_commit_rollback_discipline_witness :
    ((excOk c4create.res = true →
       (c4create.trace.count SessOp.commit = 1 ∧
        c4create.trace.count SessOp.rollback = 0)) ∧
     (excOk c4create.res = false →
       ((c4create.trace = [] ∨ c4create.trace.getLast? = some SessOp.rollback) ∧
        c4create.sess.draft = c4create.sess.base ∧
        (c4create.trace.count SessOp.commit = 0 →
         (c4create.sess.base = sampleDb ∧ c4create.sess.draft = sampleDb)))) ∧
     ((none : Option String) = none → (some "boom" : Option String) ≠ none →
       (c4create.sess.base
           = sampleDb ++ [newItem (fun _ => Value.vint 7) sampleCreateBody] ∧
        c4create.trace.count SessOp.commit = 1))) ∧
    ((excOk c4update.res = true →
       (c4update.trace.count SessOp.commit = 1 ∧
        c4update.trace.count SessOp.rollback = 0)) ∧
     (excOk c4update.res = false →
       ((c4update.trace = [] ∨ c4update.trace.getLast? = some SessOp.rollback) ∧
        c4update.sess.draft = c4update.sess.base ∧
        (c4update.trace.count SessOp.commit = 0 →
         (c4update.sess.base = sampleDb ∧ c4update.sess.draft = sampleDb)))) ∧
     ((none : Option String) = none → (none : Option String) = none →
       (some "boom" : Option String) ≠ none →
       (queryFirst "id" sampleDb (Value.vint 1)).isSome = true →
       c4update.trace.count SessOp.commit = 1)) ∧
    ((excOk c4delete.res = true →
       (c4delete.trace.count SessOp.commit = 1 ∧
        c4delete.trace.count SessOp.rollback = 0)) ∧
     (excOk c4delete.res = false →
       ((c4delete.trace = [] ∨ c4delete.trace.getLast? = some SessOp.rollback) ∧
        c4delete.sess.draft = c4delete.sess.base ∧
        (c4delete.sess.base = sampleDb ∧ c4delete.sess.draft = sampleDb)))) :=
  mutation_commit_rollback_discipline sampleTable "id" (Value.vint 1)
    [("name", Value.vnull)] sampleCreateBody (fun _ => Value.vint 7)
    (Session.mk sampleDb sampleDb) none none (some "boom") rfl

/-- Erasing the first match from a list holding at most one match leaves
a list with no match. -/
theorem find?_eraseP_of_countP_le_one {α : Type} (p : α → Bool) (l : List α)
    (h : l.countP p ≤ 1) : (l.eraseP p).find? p = none := by
  induction l with
  | nil => rfl
  | cons x xs ih =>
    by_cases hx : p x
    · rw [List.eraseP_cons_of_pos hx]
      have hxs : xs.countP p = 0 := by
        rw [List.countP_cons_of_pos _ _ hx] at h
        omega
      exact List.find?_eq_none.mpr fun a ha hp =>
        (List.countP_eq_zero.mp hxs a ha) hp
    · rw [List.eraseP_cons_of_neg hx]
      rw [List.find?_cons_of_neg _ hx]
      apply ih
      rw [List.countP_cons_of_neg _ _ hx] at h
      exact h

/-- Claim C6: deleting a present id (at most one row carries it) removes
the row and answers 204 with an empty body, and a second delete of the
same id against the resulting committed state answers 404; deleting an
absent id answers 404 and leaves the session state unchanged. -/
theorem delete_idempotence
    (t : Table) (pkName : String) (id : Value) (s : Session)
    (hclean : s.draft = s.base)
    (huniq : s.draft.countP (fun j => decide (j pkName = id)) ≤ 1) :
    (queryFirst pkName s.draft id = none →
      (is404 (delete_handler t pkName id s none none).res = true ∧
       (delete_handler t pkName id s none none).sess.base = s.base ∧
       (delete_handler t pkName id s none none).sess.draft = s.draft)) ∧
    ((queryFirst pkName s.draft id).isSome = true →
      ((delete_handler t pkName id s none none).res = Except.ok (204, none) ∧
       queryFirst pkName (delete_handler t pkName id s none none).sess.base id = none ∧
       is404 (delete_handler t pkName id
          (Session.mk (delete_handler t pkName id s none none).sess.base
                      (delete_handler t pkName id s none none).sess.base)
          none none).res = true)) := by
  cases hq : queryFirst pkName s.draft id with
  | none =>
    constructor
    · intro _
      refine ⟨?_, ?_, ?_⟩ <;> simp [delete_handler, hq, is404]
    · intro h
      exact Bool.noConfusion h
  | some it =>
    constructor
    · intro h
      exact Option.noConfusion h
    · intro _
      have hnone : queryFirst pkName
          (s.draft.eraseP (fun j => decide (j pkName = id))) id = none :=
        find?_eraseP_of_countP_le_one _ _ huniq
      refine ⟨?_, ?_, ?_⟩
      · simp [delete_handler, hq]
      · simp only [delete_handler, hq]
        exact hnone
      · simp only [delete_handler, hq, hnone, is404]

/-- Witness for C6: deleting id 1 from the sample state returns 204,
removes the row, and a second delete of id 1 returns 404. -/
theorem delete_idempotence_witness :
    (queryFirst "id" sampleDb (Value.vint 1) = none →
      (is404 (delete_handler sampleTable "id" (Value.vint 1)
          (Session.mk sampleDb sampleDb) none none).res = true ∧
       (delete_handler sampleTable "id" (Value.vint 1)
          (Session.mk sampleDb sampleDb) none none).sess.base = sampleDb ∧
       (delete_handler sampleTable "id" (Value.vint 1)
          (Session.mk sampleDb sampleDb) none none).sess.draft = sampleDb)) ∧
    ((queryFirst "id" sampleDb (Value.vint 1)).isSome = true →
      ((delete_handler sampleTable "id" (Value.vint 1)
          (Session.mk sampleDb sampleDb) none none).res = Except.ok (204, none) ∧
       queryFirst "id" (delete_handler sampleTable "id" (Value.vint 1)
          (Session.mk sampleDb sampleDb) none none).sess.base (Value.vint 1) = none ∧
       is404 (delete_handler sampleTable "id" (Value.vint 1)
          (Session.mk (delete_handler sampleTable "id" (Value.vint 1)
              (Session.mk sampleDb sampleDb) none none).sess.base
            (delete_handler sampleTable "id" (Value.vint 1)
              (Session.mk sampleDb sampleDb) none none).sess.base)
          none none).res = true)) :=
  delete_idempotence sampleTable "id" (Value.vint 1)
    (Session.mk sampleDb sampleDb) rfl (by decide)

/-- A pydantic field as `create_model` receives it: the Python scalar
type annotated, whether it is wrapped in `Optional`, and whether it is
required (`...`) or defaulted to `None`. -/
structure FieldSpec where
  ftype : PyType
  innerOptional : Bool
  required : Bool
deriving DecidableEq

/-- The body-field type of a column (`base.py` lines 57-61):
`col.type.python_type`, falling back to `str` when it raises. -/
def colFieldType (c : Column) : PyType := c.pytype.getD .pstr

/-- The Create-schema field of a column (`base.py` lines 62-66):
`Optional` with default `None` when nullable, required otherwise. -/
def createField (c : Column) : FieldSpec :=
  { ftype := colFieldType c, innerOptional := c.nullable, required := !c.nullable }

/-- The Update-schema field of a column (`base.py` line 70): the Create
field's type with the default changed to `None`, so never required. -/
def updateField (c : Column) : FieldSpec :=
  { ftype := colFieldType c, innerOptional := c.nullable, required := false }

/-- The result of `create_crud_router` (`base.py` lines 15-71) up to the
data its handlers close over: the table name, the primary-key name, the
type annotating the `item_id` path parameter, and the three derived
schemas. -/
structure Router where
  table_name : String
  pk_name : String
  pk_path_type : PyType
  createFields : List (String × FieldSpec)
  updateFields : List (String × FieldSpec)
  responseFields : List (String × FieldSpec)
deriving DecidableEq

/-- Construction of `create_crud_router` (`base.py` lines 36-71): locate the
first primary-key column, raising `ValueError` when there is none;
resolve the path-parameter type from the primary key's Python type,
falling back to `int` when it cannot be resolved (lines 48-52); derive
the Create/Update/Response schemas over all columns. -/
def create_crud_router (t : Table) : Except String Router :=
  match tablePk t with
  | none => .error ("No primary key found for " ++ t.name)
  | some pk =>
      .ok { table_name := t.name
            pk_name := pk.name
            pk_path_type := pk.pytype.getD .pint
            createFields := t.cols.map (fun c => (c.name, createField c))
            updateFields := t.cols.map (fun c => (c.name, updateField c))
            responseFields := t.cols.map (fun c => (c.name, createField c)) }

/-- The path-parameter type of the built router, when the build
succeeds. -/
def routerPkPathType (t : Table) : Option PyType :=
  match create_crud_router t with
  | .ok r => some r.pk_path_type
  | .error _ => none

/-- Build succeeds exactly when some column is flagged primary key. -/
theorem create_crud_router_ok_iff (t : Table) :
    excOk (create_crud_router t) = t.cols.any (fun c => c.primary_key) := by
  unfold create_crud_router tablePk
  cases hf : t.cols.find? (fun c => c.primary_key) with
  | none =>
    have := List.find?_eq_none.mp hf
    have hany : t.cols.any (fun c => c.primary_key) = false := by
      rw [← Bool.not_eq_true]
      intro hx
      obtain ⟨c, hc, hp⟩ := List.any_eq_true.mp hx
      exact this c hc hp
    rw [hany]
    rfl
  | some pk =>
    have hp : pk.primary_key = true := List.find?_some hf
    have hm : pk ∈ t.cols := List.mem_of_find?_eq_some hf
    have hany : t.cols.any (fun c => c.primary_key) = true :=
      List.any_eq_true.mpr ⟨pk, hm, hp⟩
    rw [hany]
    rfl

/-- Claim C2: the router factory fails at construction time if and only
if the table has no primary-key column (stated unconditionally, for
every table), and when the primary key exists with a resolvable scalar
type, that type annotates (hence parses) the `item_id` path parameter. -/
theorem router_build_requires_pk (t : Table) (pkc : Column) (ty : PyType) :
    excOk (create_crud_router t) = t.cols.any (fun c => c.primary_key) ∧
    (tablePk t = some pkc → pkc.pytype = some ty →
      routerPkPathType t = some ty) := by
  refine ⟨create_crud_router_ok_iff t, ?_⟩
  intro hpk hty
  unfold routerPkPathType create_crud_router
  rw [hpk]
  simp [hty]

/-- The primary-key column of the sample table. -/
def sampleIdCol : Column :=
  { name := "id", pytype := some .pint, nullable := false, primary_key := true }

/-- A table with no primary-key column, exercising the failure direction
of the build iff. -/
def tNoPk : Table :=
  { name := "t_nopk"
    cols := [ { name := "a", pytype := some .pstr, nullable := true, primary_key := false } ] }

/-- Witness for C2: the sample table builds (it has the `id` primary key,
whose integer type makes the path parameter an `int`), while the pk-less
table `tNoPk` fails to build — both read off the same iff. -/
theorem router_build_requires_pk_witness :
    (excOk (create_crud_router sampleTable)
        = sampleTable.cols.any (fun c => c.primary_key) ∧
     (tablePk sampleTable = some sampleIdCol → sampleIdCol.pytype = some PyType.pint →
       routerPkPathType sampleTable = some PyType.pint)) ∧
    (excOk (create_crud_router tNoPk) = tNoPk.cols.any (fun c => c.primary_key) ∧
     (tablePk tNoPk = some sampleIdCol → sampleIdCol.pytype = some PyType.pint →
       routerPkPathType tNoPk = some PyType.pint)) :=
  ⟨router_build_requires_pk sampleTable sampleIdCol PyType.pint,
   router_build_requires_pk tNoPk sampleIdCol PyType.pint⟩

/-- A table whose single column is a primary key with an unresolvable
scalar type (`python_type` raises). -/
def tUnknownPk : Table :=
  { name := "t_unknown"
    cols := [ { name := "k", pytype := none, nullable := false, primary_key := true } ] }

/-- The single column of `tUnknownPk`. -/
def kCol : Column :=
  { name := "k", pytype := none, nullable := false, primary_key := true }

/-- Counterexample to C9 as stated: on a primary-key column whose scalar
type cannot be resolved, the type derived for the `item_id` path
parameter falls back to `int` (`base.py` lines 50-52), not to string. -/
theorem pk_unknown_type_falls_back_to_int :
    routerPkPathType tUnknownPk = some PyType.pint ∧ PyType.pint ≠ PyType.pstr :=
  ⟨rfl, by decide⟩

/-- Claim C9 (amended): for every table, any column with an unresolvable
scalar type gets the string type in the Create, Update and Response
schemas of the built router, and such columns never make the build fail
— build success is unconditionally equivalent to the presence of a
primary key; however, an unresolvable primary-key type makes the path
parameter fall back to `int`, not string. -/
theorem unknown_type_degradation_amended
    (t : Table) (c pkc : Column) (r : Router)
    (hnd : (t.cols.map Column.name).Nodup)
    (hc : c ∈ t.cols) (hu : c.pytype = none) :
    excOk (create_crud_router t) = t.cols.any (fun d => d.primary_key) ∧
    (create_crud_router t = .ok r →
      (r.createFields.lookup c.name
        = some { ftype := PyType.pstr, innerOptional := c.nullable, required := !c.nullable } ∧
       r.updateFields.lookup c.name
        = some { ftype := PyType.pstr, innerOptional := c.nullable, required := false } ∧
       r.responseFields.lookup c.name
        = some { ftype := PyType.pstr, innerOptional := c.nullable, required := !c.nullable })) ∧
    (create_crud_router t = .ok r → tablePk t = some pkc → pkc.pytype = none →
      r.pk_path_type = PyType.pint) := by
  refine ⟨create_crud_router_ok_iff t, ?_, ?_⟩
  · intro hr
    unfold create_crud_router at hr
    cases hpk : tablePk t with
    | none =>
      rw [hpk] at hr
      exact Except.noConfusion hr
    | some pk =>
      rw [hpk] at hr
      have he := Except.ok.inj hr
      subst he
      refine ⟨?_, ?_, ?_⟩
      · rw [lookup_map_name createField t.cols c hnd hc]
        simp [createField, colFieldType, hu]
      · rw [lookup_map_name updateField t.cols c hnd hc]
        simp [updateField, colFieldType, hu]
      · rw [lookup_map_name createField t.cols c hnd hc]
        simp [createField, colFieldType, hu]
  · intro hr hpk hupk
    unfold create_crud_router at hr
    rw [hpk] at hr
    have he := Except.ok.inj hr
    subst he
    simp [hupk]

/-- The router that `create_crud_router` builds for `tUnknownPk`. -/
def routerOfUnknownPk : Router :=
  { table_name := "t_unknown"
    pk_name := "k"
    pk_path_type := .pint
    createFields := [("k", { ftype := .pstr, innerOptional := false, required := true })]
    updateFields := [("k", { ftype := .pstr, innerOptional := false, required := false })]
    responseFields := [("k", { ftype := .pstr, innerOptional := false, required := true })] }

/-- Witness for C9 (amended): on `tUnknownPk` the build succeeds, the
unresolvable column is validated as a string in every schema of the
built router, and the path parameter type is `int`. -/
theorem unknown_type_degradation_amended_witness :
    excOk (create_crud_router tUnknownPk)
      = tUnknownPk.cols.any (fun d => d.primary_key) ∧
    (create_crud_router tUnknownPk = .ok routerOfUnknownPk →
      (routerOfUnknownPk.createFields.lookup "k"
        = some { ftype := PyType.pstr, innerOptional := false, required := true } ∧
       routerOfUnknownPk.updateFields.lookup "k"
        = some { ftype := PyType.pstr, innerOptional := false, required := false } ∧
       routerOfUnknownPk.responseFields.lookup "k"
        = some { ftype := PyType.pstr, innerOptional := false, required := true })) ∧
    (create_crud_router tUnknownPk = .ok routerOfUnknownPk →
      tablePk tUnknownPk = some kCol → kCol.pytype = none →
      routerOfUnknownPk.pk_path_type = PyType.pint) :=
  unknown_type_degradation_amended tUnknownPk kCol kCol routerOfUnknownPk
    (by decide) (by decide) rfl

/-- The custom filter endpoint of `app/routers/subjects.py` lines 27-43:
return every row of the subjects table whose `enrollment_id` and
`subject` attributes equal the two query parameters, as raw rows (not
passed through the derived Response schema), with the default status
200. -/
def filter_subjects (db : List Item) (enrollment_id subject : String) : List Item :=
  db.filter (fun it =>
    decide (it "enrollment_id" = Value.vstr enrollment_id) &&
    decide (it "subject" = Value.vstr subject))

/-- Modelled from the spec: the reflected `subjects` schema itself is not
in src (the database schema is discovered by runtime reflection); the
spec gives the table a single generated primary key plus the two
filterable columns, and `subjects.py` confirms the `enrollment_id` and
`subject` attributes. -/
def subjectsTable : Table :=
  { name := "subjects"
    cols := [ { name := "id", pytype := some .pint, nullable := false, primary_key := true },
              { name := "enrollment_id", pytype := some .pstr, nullable := true, primary_key := false },
              { name := "subject", pytype := some .pstr, nullable := true, primary_key := false } ] }

/-- The example body of the spec: `{"enrollment_id":"E1","subject":"Math"}`. -/
def subjectsBody : Rec :=
  [("enrollment_id", Value.vstr "E1"), ("subject", Value.vstr "Math")]

/-- Claim C8: the filter endpoint returns exactly the rows whose two
columns equal the supplied values (every returned row matches, and the
count of returned rows is the count of matching rows); in particular,
creating the spec's example subject on a state with no matching row makes
the E1/Math filter return exactly the created row, whose record carries a
non-null generated primary key and the two supplied fields. -/
theorem filter_subjects_exact
    (db : List Item) (e sub : String) (dflt : String → Value) (s : Session)
    (hs : s.draft = db)
    (hpkgen : dflt "id" ≠ Value.vnull) :
    (filter_subjects db e sub).all (fun it =>
        decide (it "enrollment_id" = Value.vstr e) &&
        decide (it "subject" = Value.vstr sub)) = true ∧
    (filter_subjects db e sub).length = db.countP (fun it =>
        decide (it "enrollment_id" = Value.vstr e) &&
        decide (it "subject" = Value.vstr sub)) ∧
    (create_handler subjectsTable dflt subjectsBody s none none).res
      = Except.ok (201, some (model_to_dict subjectsTable (newItem dflt subjectsBody))) ∧
    (model_to_dict subjectsTable (newItem dflt subjectsBody)).lookup "id"
      = some (dflt "id") ∧
    (model_to_dict subjectsTable (newItem dflt subjectsBody)).lookup "id"
      ≠ some Value.vnull ∧
    (db.countP (fun it =>
        decide (it "enrollment_id" = Value.vstr "E1") &&
        decide (it "subject" = Value.vstr "Math")) = 0 →
      filter_subjects
          (create_handler subjectsTable dflt subjectsBody s none none).sess.base
          "E1" "Math"
        = [newItem dflt subjectsBody]) := by
  refine ⟨?_, ?_, rfl, rfl, ?_, ?_⟩
  · exact List.all_eq_true.mpr fun it hit => (List.mem_filter.mp hit).2
  · exact (List.countP_eq_length_filter _ _).symm
  · intro h
    exact hpkgen (Option.some.inj h)
  · intro hnomatch
    show filter_subjects (s.draft ++ [newItem dflt subjectsBody]) "E1" "Math" = _
    rw [hs]
    unfold filter_subjects
    rw [List.filter_append]
    rw [List.filter_eq_nil_iff.mpr fun a ha hp =>
      (List.countP_eq_zero.mp hnomatch a ha) hp]
    rfl

/-- Witness for C8: starting from the empty state, creating the example
subject makes the E1/Math filter return exactly that row. -/
theorem filter_subjects_exact_witness :
    (filter_subjects [] "E1" "Math").all (fun it =>
        decide (it "enrollment_id" = Value.vstr "E1") &&
        decide (it "subject" = Value.vstr "Math")) = true ∧
    (filter_subjects [] "E1" "Math").length = List.countP (fun it =>
        decide (it "enrollment_id" = Value.vstr "E1") &&
        decide (it "subject" = Value.vstr "Math")) ([] : List Item) ∧
    (create_handler subjectsTable (fun _ => Value.vint 9) subjectsBody
        (Session.mk [] []) none none).res
      = Except.ok (201, some (model_to_dict subjectsTable
          (newItem (fun _ => Value.vint 9) subjectsBody))) ∧
    (model_to_dict subjectsTable (newItem (fun _ => Value.vint 9) subjectsBody)).lookup "id"
      = some ((fun _ => Value.vint 9) "id") ∧
    (model_to_dict subjectsTable (newItem (fun _ => Value.vint 9) subjectsBody)).lookup "id"
      ≠ some Value.vnull ∧
    (List.countP (fun it =>
        decide (it "enrollment_id" = Value.vstr "E1") &&
        decide (it "subject" = Value.vstr "Math")) ([] : List Item) = 0 →
      filter_subjects (create_handler subjectsTable (fun _ => Value.vint 9) subjectsBody
          (Session.mk [] []) none none).sess.base "E1" "Math"
        = [newItem (fun _ => Value.vint 9) subjectsBody]) :=
  filter_subjects_exact [] "E1" "Math" (fun _ => Value.vint 9)
    (Session.mk [] []) rfl (by decide)

/-- Claim C10: every successful record produced by the get-by-id, create
and update handlers, and every element of a list result, is a mapping
whose keys are exactly the table's column names in column order — the
records come from `model_to_dict`'s direct column extraction, whatever
fields the request supplied. -/
theorem response_shape_keys
    (t : Table) (it : Item) (q : Except String (Option Item)) (id : Value)
    (dflt : String → Value) (body bodyU : Rec) (s s2 : Session) (pkName : String)
    (db : List Item) (skip limit : Nat) (rg rc ru : Rec)
    (hg : get_by_id_handler t q id = Except.ok (200, some rg))
    (hc : (create_handler t dflt body s none none).res = Except.ok (201, some rc))
    (hu : (update_handler t pkName id bodyU s2 none none none).res
            = Except.ok (200, some ru)) :
    (model_to_dict t it).map Prod.fst = t.cols.map Column.name ∧
    rg.map Prod.fst = t.cols.map Column.name ∧
    rc.map Prod.fst = t.cols.map Column.name ∧
    ru.map Prod.fst = t.cols.map Column.name ∧
    (get_all t db skip limit).all
      (fun r => decide (r.map Prod.fst = t.cols.map Column.name)) = true := by
  refine ⟨keys_model_to_dict t it, ?_, ?_, ?_, ?_⟩
  · match q with
    | .error m => exact Except.noConfusion hg
    | .ok none => exact Except.noConfusion hg
    | .ok (some j) =>
      have h3 : model_to_dict t j = rg :=
        Option.some.inj (congrArg Prod.snd (Except.ok.inj hg))
      rw [← h3]
      exact keys_model_to_dict t j
  · have : model_to_dict t (newItem dflt body) = rc :=
      Option.some.inj (congrArg Prod.snd (Except.ok.inj hc))
    rw [← this]
    exact keys_model_to_dict t _
  · cases hq : queryFirst pkName s2.draft id with
    | none =>
      simp only [update_handler, hq] at hu
      exact Except.noConfusion hu
    | some j =>
      simp only [update_handler, hq] at hu
      have : model_to_dict t (applyBody bodyU j) = ru :=
        Option.some.inj (congrArg Prod.snd (Except.ok.inj hu))
      rw [← this]
      exact keys_model_to_dict t _
  · refine List.all_eq_true.mpr fun r hr => ?_
    obtain ⟨row, _, hrow⟩ := List.mem_map.mp hr
    exact decide_eq_true (hrow ▸ keys_model_to_dict t row)

/-- Witness for C10: on the sample table, a found get, a create and an
update all produce records keyed exactly by the column names, as does
every element of the list result. -/
theorem response_shape_keys_witness :
    (model_to_dict sampleTable itemA).map Prod.fst
      = sampleTable.cols.map Column.name ∧
    (model_to_dict sampleTable itemA).map Prod.fst
      = sampleTable.cols.map Column.name ∧
    (model_to_dict sampleTable (newItem (fun _ => Value.vint 7) sampleCreateBody)).map Prod.fst
      = sampleTable.cols.map Column.name ∧
    (model_to_dict sampleTable (applyBody [("name", Value.vnull)] itemA)).map Prod.fst
      = sampleTable.cols.map Column.name ∧
    (get_all sampleTable sampleDb 0 100).all
      (fun r => decide (r.map Prod.fst = sampleTable.cols.map Column.name)) = true :=
  response_shape_keys sampleTable itemA (Except.ok (some itemA)) (Value.vint 1)
    (fun _ => Value.vint 7) sampleCreateBody [("name", Value.vnull)]
    (Session.mk sampleDb sampleDb) (Session.mk sampleDb sampleDb) "id"
    sampleDb 0 100
    (model_to_dict sampleTable itemA)
    (model_to_dict sampleTable (newItem (fun _ => Value.vint 7) sampleCreateBody))
    (model_to_dict sampleTable (applyBody [("name", Value.vnull)] itemA))
    rfl rfl rfl

end SlpApi
